import Mathlib

/-
  Verification of the Schur-decomposition core (Hessenberg reduction +
  implicit double-shift QR with deflation).

  The repository contains two variants of the QR driver:
  * `schur_decomposition.h` — absolute deflation threshold (`near_zero`,
    `try_deflate`), sweep-then-deflate `for` loop;
  * the second driver file — relative deflation threshold
    (`zero_under_diagonal`, cascading `try_to_deflate`), deflation checked
    before the first sweep and after each sweep.

  Embedding conventions:
  * the arithmetic `Scalar` template parameter is instantiated with ℚ
    (exact arithmetic, decidable comparisons);
  * a dense matrix is a total function `ℤ → ℤ → ℚ`; an index pair is
    in bounds for an n-by-n matrix iff `validIndex n i j` holds, and the
    deflation cascade is instrumented to record every (row, col) pair the
    C++ code would read, so out-of-bounds accesses are checkable facts;
  * Eigen block views alias their owner: applying a reflector to a block
    rewrites exactly the entries of the block region and nothing else
    (`reflectLeftBlock`, `reflectRightBlock`);
  * the `while` / `for` loops of the drivers get an explicit fuel
    argument and return `none` when the fuel is exhausted before the
    loop condition fails;
  * `householder_reflection.h` and `hessenberg_reduction.h` are not part
    of the examined sources, so the Householder reflector is modelled
    from the spec and the Hessenberg phase is an abstract parameter of
    the driver model.
-/

namespace SchurSpec

/-- A dense real matrix, indexed by integers so that out-of-range
accesses (such as column -1) are expressible. -/
abbrev Mat := ℤ → ℤ → ℚ

/-- In-bounds predicate for an n-by-n matrix. -/
def validIndex (n i j : ℤ) : Prop := 0 ≤ i ∧ i < n ∧ 0 ≤ j ∧ j < n

instance (n i j : ℤ) : Decidable (validIndex n i j) := by
  unfold validIndex; infer_instance

/-- Write a single entry of a matrix. -/
def updEntry (M : Mat) (i j : ℤ) (v : ℚ) : Mat :=
  fun a b => if a = i ∧ b = j then v else M a b

/-- Sum of `f 0 + f 1 + ... + f (k-1)`. -/
def isum : ℕ → (ℤ → ℚ) → ℚ
  | 0, _ => 0
  | k + 1, f => isum k f + f k

/-- The identity matrix (of any size). -/
def idMat : Mat := fun i j => if i = j then 1 else 0

/-- 3-by-3 matrix product (used by the starter-column computation on
Eigen `Matrix3` values). -/
def mul3 (A B : Mat) : Mat := fun i j => isum 3 (fun k => A i k * B k j)

/-- Left application `block := H * block` of a k-by-k reflector matrix H
to the aliasing block view with top-left corner (r0, c0), k rows and
`cols` columns: entries inside the block region are rewritten, all other
entries of the owner are untouched. -/
def reflectLeftBlock (H : Mat) (M : Mat) (r0 c0 : ℤ) (k : ℕ) (cols : ℤ) : Mat :=
  fun i j =>
    if r0 ≤ i ∧ i < r0 + k ∧ c0 ≤ j ∧ j < c0 + cols then
      isum k (fun l => H (i - r0) l * M (r0 + l) j)
    else M i j

/-- Right application `block := block * H` of a k-by-k reflector matrix H
to the aliasing block view with top-left corner (r0, c0), `rows` rows and
k columns. -/
def reflectRightBlock (H : Mat) (M : Mat) (r0 c0 : ℤ) (rows : ℤ) (k : ℕ) : Mat :=
  fun i j =>
    if r0 ≤ i ∧ i < r0 + rows ∧ c0 ≤ j ∧ j < c0 + k then
      isum k (fun l => M i (c0 + l) * H l (j - c0))
    else M i j

/-- The mutable state shared by the SchurDecomposition helper methods:
the schur-form buffer, the unitary accumulator, the matrix size, the
active size `cur_size_` and the `precision_` member. -/
structure QRState where
  T : Mat
  U : Mat
  n : ℤ
  cur : ℤ
  prec : ℚ

/-- The column vector stored in the block view
`block(row, col, rows, 1)` of the schur form. -/
def block_column (s : QRState) (row col : ℤ) (rows : ℕ) : ℤ → ℚ :=
  fun l => if 0 ≤ l ∧ l < rows then s.T (row + l) col else 0

/-- A Householder-reflector factory: from the length `k` and the stored
column vector, produce the k-by-k orthogonal matrix the two reflect
calls apply.  The concrete factory lives in `householder_reflection.h`,
which is outside the examined sources, so the QR drivers are stated for
an arbitrary factory. -/
abbrev HouseFn := ℕ → (ℤ → ℚ) → Mat

/-- `find_bottom_corner_trace`: trace of the trailing active 2-by-2
block `block(cur_size - 1, cur_size - 1, 2, 2)` (identical in both
driver files). -/
def find_bottom_corner_trace (s : QRState) : ℚ :=
  s.T (s.cur - 1) (s.cur - 1) + s.T s.cur s.cur

/-- `find_bottom_corner_det`: determinant of the trailing active 2-by-2
block (identical in both driver files). -/
def find_bottom_corner_det (s : QRState) : ℚ :=
  s.T (s.cur - 1) (s.cur - 1) * s.T s.cur s.cur -
    s.T (s.cur - 1) s.cur * s.T s.cur (s.cur - 1)

/-! ### Relative-threshold driver (the second driver file) -/

namespace RelQR

/-- `zero_under_diagonal(index)`: the relative deflation test
`|T(index, index-1)| < precision * (|T(index, index)| + |T(index-1, index-1)|)`. -/
def zero_under_diagonal (s : QRState) (index : ℤ) : Bool :=
  decide (|s.T index (index - 1)| <
    s.prec * (|s.T index index| + |s.T (index - 1) (index - 1)|))

/-- The (row, col) pairs of the schur form that one evaluation of
`zero_under_diagonal(index)` reads. -/
def zudReads (index : ℤ) : List (ℤ × ℤ) :=
  [(index, index - 1), (index, index), (index - 1, index - 1)]

/-- `decrement_cur_size(decrement)`: zero the deflated sub-diagonal entry
`T(cur_size + 1 - decrement, cur_size - decrement)` and shrink `cur_size_`. -/
def decrement_cur_size (s : QRState) (decrement : ℤ) : QRState :=
  { s with
    T := updEntry s.T (s.cur + 1 - decrement) (s.cur - decrement) 0
    cur := s.cur - decrement }

/-- `try_to_deflate()`: the cascading deflation loop.  Returns the final
state together with the list of schur-form entries read by the
`zero_under_diagonal` tests, or `none` when the fuel runs out before the
loop exits. -/
def try_to_deflate : ℕ → QRState → Option (QRState × List (ℤ × ℤ))
  | 0, _ => none
  | fuel + 1, s =>
    if zero_under_diagonal s s.cur then
      match try_to_deflate fuel (decrement_cur_size s 1) with
      | none => none
      | some (s1, r) => some (s1, zudReads s.cur ++ r)
    else if zero_under_diagonal s (s.cur - 1) then
      match try_to_deflate fuel (decrement_cur_size s 2) with
      | none => none
      | some (s1, r) => some (s1, zudReads s.cur ++ zudReads (s.cur - 1) ++ r)
    else some (s, zudReads s.cur ++ zudReads (s.cur - 1))

/-- `find_matching_column()`: the explicit three-entry starter vector. -/
def find_matching_column (s : QRState) : ℤ → ℚ :=
  let trace := find_bottom_corner_trace s
  let det := find_bottom_corner_det s
  fun l =>
    if l = 0 then
      s.T 0 0 * s.T 0 0 + s.T 0 1 * s.T 1 0 - trace * s.T 0 0 + det
    else if l = 1 then
      s.T 1 0 * (s.T 0 0 + s.T 1 1 - trace)
    else if l = 2 then
      s.T 1 0 * s.T 2 1
    else 0

/-- `get_reflected_column(step, rows)`: the stored column
`block(step + 1, step, rows, 1)`. -/
def get_reflected_column (s : QRState) (step : ℤ) (rows : ℕ) : ℤ → ℚ :=
  block_column s (step + 1) step rows

/-- `update_schur_form(reflector, step, length)`: left application to
`block(step+1, max(step,0), length, size - max(step,0))` followed by
right application to `block(0, step+1, min(cur_size, step+4) + 1, length)`. -/
def update_schur_form (H : Mat) (s : QRState) (step : ℤ) (length : ℕ) : QRState :=
  { s with
    T := reflectRightBlock H
      (reflectLeftBlock H s.T (step + 1) (max step 0) length (s.n - max step 0))
      0 (step + 1) (min s.cur (step + 4) + 1) length }

/-- `update_unitary(reflector, step, length)`: right application to
`block(0, step+1, size, length)` of the unitary accumulator. -/
def update_unitary (H : Mat) (s : QRState) (step : ℤ) (length : ℕ) : QRState :=
  { s with U := reflectRightBlock H s.U 0 (step + 1) s.n length }

/-- `set_matching_column()`: build the reflector from the starter vector
and apply it at step -1 with length 3. -/
def set_matching_column (house : HouseFn) (s : QRState) : QRState :=
  let H := house 3 (find_matching_column s)
  update_unitary H (update_schur_form H s (-1) 3) (-1) 3

/-- The `for` loop of `restore_hessenberg_form()`: `k` remaining
iterations, current step index `step`. -/
def chase (house : HouseFn) : ℕ → ℤ → QRState → QRState
  | 0, _, s => s
  | k + 1, step, s =>
    let H := house 3 (get_reflected_column s step 3)
    chase house k (step + 1) (update_unitary H (update_schur_form H s step 3) step 3)

/-- `restore_hessenberg_form()`: the bulge chase (steps 0 .. cur_size-3
with a length-3 reflector) followed by the final length-2 reflector at
the step index left by the loop. -/
def restore_hessenberg_form (house : HouseFn) (s : QRState) : QRState :=
  let s1 := chase house (s.cur - 2).toNat 0 s
  let stepF : ℤ := ((s.cur - 2).toNat : ℤ)
  let H := house 2 (get_reflected_column s1 stepF 2)
  update_unitary H (update_schur_form H s1 stepF 2) stepF 2

/-- `make_QR_iteration()`: one sweep. -/
def make_QR_iteration (house : HouseFn) (s : QRState) : QRState :=
  restore_hessenberg_form house (set_matching_column house s)

/-- The `while (cur_size_ >= 2)` loop of `run_QR_algorithm()`, with
sweep fuel `f` and deflation fuel `d`. -/
def QR_loop (house : HouseFn) (d : ℕ) : ℕ → QRState → Option QRState
  | 0, s => if 2 ≤ s.cur then none else some s
  | f + 1, s =>
    if 2 ≤ s.cur then
      (try_to_deflate d (make_QR_iteration house s)).bind
        (fun p => QR_loop house d f p.1)
    else some s

/-- `run_QR_algorithm()`: set `cur_size_ = size - 1`, deflate once before
the first iteration when `cur_size_ >= 2`, then run the sweep loop. -/
def run_QR_algorithm (house : HouseFn) (f d : ℕ) (s : QRState) : Option QRState :=
  let s0 := { s with cur := s.n - 1 }
  if 2 ≤ s0.cur then
    (try_to_deflate d s0).bind (fun p => QR_loop house d f p.1)
  else QR_loop house d f s0

/-- `run(data, schur_form, unitary)` after a successful
`set_internal_resources`: copy the data, run the (externally supplied)
Hessenberg reduction on the copied buffer and the unitary accumulator,
then run the QR loop. -/
def run (house : HouseFn) (hess : Mat → Mat → Mat × Mat) (f d : ℕ)
    (data U0 : Mat) (n : ℤ) (prec : ℚ) : Option QRState :=
  let p := hess data U0
  run_QR_algorithm house f d { T := p.1, U := p.2, n := n, cur := 0, prec := prec }

end RelQR

/-! ### Absolute-threshold driver (`schur_decomposition.h`) -/

namespace AbsQR

/-- `near_zero(value)`: the absolute deflation test `|value| < precision`. -/
def near_zero (prec value : ℚ) : Bool := decide (|value| < prec)

/-- `deflate_once()`: zero `T(cur_size, cur_size - 1)`, `cur_size_ -= 1`. -/
def deflate_once (s : QRState) : QRState :=
  { s with T := updEntry s.T s.cur (s.cur - 1) 0, cur := s.cur - 1 }

/-- `deflate_twice()`: zero `T(cur_size - 1, cur_size - 2)`, `cur_size_ -= 2`. -/
def deflate_twice (s : QRState) : QRState :=
  { s with T := updEntry s.T (s.cur - 1) (s.cur - 2) 0, cur := s.cur - 2 }

/-- `try_deflate()`: test `T(cur_size, cur_size-1)` first and return on
success; otherwise test `T(cur_size-1, cur_size-2)`. -/
def try_deflate (s : QRState) : QRState :=
  if near_zero s.prec (s.T s.cur (s.cur - 1)) then deflate_once s
  else if near_zero s.prec (s.T (s.cur - 1) (s.cur - 2)) then deflate_twice s
  else s

/-- `find_starter_column()`: first column of
`top * top - trace * top + det * I` for the 3-by-3 top-left corner. -/
def find_starter_column (s : QRState) : ℤ → ℚ :=
  let trace := find_bottom_corner_trace s
  let det := find_bottom_corner_det s
  let top : Mat := fun i j => s.T i j
  let starter_block : Mat := fun i j =>
    mul3 top top i j - trace * top i j + det * idMat i j
  fun l => starter_block l 0

/-- `start()`: build the reflector from the starter column, apply it left
to `block(0, 0, 3, size)`, right to `block(0, 0, min(cur_size,3)+1, 3)`
and right to the unitary `block(0, 0, size, 3)`. -/
def start (house : HouseFn) (s : QRState) : QRState :=
  let H := house 3 (find_starter_column s)
  let T1 := reflectLeftBlock H s.T 0 0 3 s.n
  let T2 := reflectRightBlock H T1 0 0 (min s.cur 3 + 1) 3
  let U1 := reflectRightBlock H s.U 0 0 s.n 3
  { s with T := T2, U := U1 }

/-- One iteration of the `process()` loop at step index `step`. -/
def process_step (house : HouseFn) (s : QRState) (step : ℤ) : QRState :=
  let H := house 3 (block_column s (step + 1) step 3)
  let T1 := reflectLeftBlock H s.T (step + 1) step 3 (s.n - step)
  let T2 := reflectRightBlock H T1 0 (step + 1) (min s.cur (step + 4) + 1) 3
  let U1 := reflectRightBlock H s.U 0 (step + 1) s.n 3
  { s with T := T2, U := U1 }

/-- `process()`: the bulge chase over steps 0 .. cur_size - 3 (`k`
remaining iterations, current step index `step`). -/
def process (house : HouseFn) : ℕ → ℤ → QRState → QRState
  | 0, _, s => s
  | k + 1, step, s => process house k (step + 1) (process_step house s step)

/-- `finish()`: the final length-2 reflector from
`block(cur_size-1, cur_size-2, 2, 1)`, applied left to
`block(cur_size-1, cur_size-2, 2, size-cur_size+2)`, right to
`block(0, cur_size-1, cur_size+1, 2)` and right to the unitary
`block(0, cur_size-1, size, 2)`. -/
def finish (house : HouseFn) (s : QRState) : QRState :=
  let H := house 2 (block_column s (s.cur - 1) (s.cur - 2) 2)
  let T1 := reflectLeftBlock H s.T (s.cur - 1) (s.cur - 2) 2 (s.n - s.cur + 2)
  let T2 := reflectRightBlock H T1 0 (s.cur - 1) (s.cur + 1) 2
  let U1 := reflectRightBlock H s.U 0 (s.cur - 1) s.n 2
  { s with T := T2, U := U1 }

/-- One body of the `for (cur_size_ = size() - 1; cur_size_ >= 2;)` loop:
`start(); process(); finish(); try_deflate();`. -/
def sweep (house : HouseFn) (s : QRState) : QRState :=
  try_deflate (finish house (process house (s.cur - 2).toNat 0 (start house s)))

/-- The `for` loop of `run_QR_algorithm()`, with fuel. -/
def QR_for (house : HouseFn) : ℕ → QRState → Option QRState
  | 0, s => if 2 ≤ s.cur then none else some s
  | f + 1, s => if 2 ≤ s.cur then QR_for house f (sweep house s) else some s

/-- `run_QR_algorithm()` of the absolute-threshold driver. -/
def run_QR_algorithm (house : HouseFn) (f : ℕ) (s : QRState) : Option QRState :=
  QR_for house f { s with cur := s.n - 1 }

/-- `run(data, schur_form, unitary)` after a successful
`set_internal_members`: copy, external Hessenberg reduction, QR loop. -/
def run (house : HouseFn) (hess : Mat → Mat → Mat × Mat) (f : ℕ)
    (data U0 : Mat) (n : ℤ) (prec : ℚ) : Option QRState :=
  let p := hess data U0
  run_QR_algorithm house f { T := p.1, U := p.2, n := n, cur := 0, prec := prec }

end AbsQR

/-! ### Reference starter column, reflector model, data holders -/

/-- Starter vector written from the words of the spec (refinement
reference):
take the trailing active 2-by-2 block of the schur form (rows/cols
[cur_size - 1, cur_size]), compute its trace and determinant, and form
the first column of `M * M - trace * M + det * I` where M is the leading
3-by-3 block of the active region (rows/cols 0..2). -/
def starter_column_ref (s : QRState) : ℤ → ℚ := fun l =>
  isum 3 (fun k => s.T l k * s.T k 0)
    - (s.T (s.cur - 1) (s.cur - 1) + s.T s.cur s.cur) * s.T l 0
    + (s.T (s.cur - 1) (s.cur - 1) * s.T s.cur s.cur
        - s.T (s.cur - 1) s.cur * s.T s.cur (s.cur - 1)) * idMat l 0

/-- Whether the entries 1 .. k-1 of a stored vector are all zero, i.e.
the vector is already a multiple of the first standard basis vector. -/
def tailZero (k : ℕ) (x : ℤ → ℚ) : Bool :=
  (List.range k).all fun l => decide (l = 0) || decide (x l = 0)

/-- Modelled from the spec: the file `householder_reflection.h` is not
among the examined sources; §4.1 specifies that `HouseholderReflector(x)`
builds `H = I - b * v * vT` mapping x onto the first standard basis
vector, and that when x is already a multiple of the first basis vector
(or indistinguishable from zero) the reflector acts as the identity with
no division by zero.  The Euclidean norm is supplied by the abstract
square-root function `sqrtFn` (exact rationals have no internal square
root). -/
def householderMatrix (sqrtFn : ℚ → ℚ) (k : ℕ) (x : ℤ → ℚ) : Mat :=
  if tailZero k x then idMat
  else
    let normx := sqrtFn (isum k (fun l => x l * x l))
    let v : ℤ → ℚ := fun l =>
      if l = 0 then x 0 + (if x 0 < 0 then -normx else normx) else x l
    let vnorm2 := isum k (fun l => v l * v l)
    fun i j => idMat i j - 2 / vnorm2 * v i * v j

/-- `TridiagonalSymmetric`: major diagonal, side diagonal, and the
immutable `size_` member (a `size_t`). -/
structure TridiagonalSymmetric where
  major_diagonal : List ℚ
  side_diagonal : List ℚ
  size : ℕ

/-- The constructor `TridiagonalSymmetric(int size)`: `assert(size >= 2)`
then allocate the two diagonal vectors of lengths size and size - 1
(`none` models the assertion failure). -/
def TridiagonalSymmetric.make (size : ℤ) : Option TridiagonalSymmetric :=
  if size < 2 then none
  else some { major_diagonal := List.replicate size.toNat 0
              side_diagonal := List.replicate (size.toNat - 1) 0
              size := size.toNat }

/-- `get_size()`. -/
def TridiagonalSymmetric.get_size (t : TridiagonalSymmetric) : ℕ := t.size

/-- `get_major_diagonal()` (read access). -/
def TridiagonalSymmetric.get_major_diagonal (t : TridiagonalSymmetric) : List ℚ :=
  t.major_diagonal

/-- `get_side_diagonal()` (read access). -/
def TridiagonalSymmetric.get_side_diagonal (t : TridiagonalSymmetric) : List ℚ :=
  t.side_diagonal

/-- A write through the mutable reference returned by
`get_major_diagonal()`. -/
def TridiagonalSymmetric.write_major_diagonal (t : TridiagonalSymmetric)
    (v : List ℚ) : TridiagonalSymmetric :=
  { t with major_diagonal := v }

/-- A write through the mutable reference returned by
`get_side_diagonal()`. -/
def TridiagonalSymmetric.write_side_diagonal (t : TridiagonalSymmetric)
    (v : List ℚ) : TridiagonalSymmetric :=
  { t with side_diagonal := v }

/-! ### The run() entry boundary

The two drivers validate their arguments with `assert` in different
orders.  Each model returns the pair (assertion fired?, contents written
into the schur-form output buffer): `none` in the second component means
the buffer was never written before the call returned or aborted. -/

/-- `set_internal_members` (`schur_decomposition.h`): asserts
`data.rows() == data.cols()`, then `schur_form`, then `unitary`, and only
afterwards executes `*p_schur_form_ = data`. -/
def set_internal_members (r c : ℤ) (schurNull unitaryNull : Bool)
    (data : Mat) : Bool × Option Mat :=
  if r ≠ c then (true, none)
  else if schurNull then (true, none)
  else if unitaryNull then (true, none)
  else (false, some data)

/-- `set_internal_resources` (the second driver file): asserts
`schur_form`, then `data.rows() == data.cols()`, then executes
`*p_schur_form_ = data`, and only afterwards asserts `unitary`. -/
def set_internal_resources (r c : ℤ) (schurNull unitaryNull : Bool)
    (data : Mat) : Bool × Option Mat :=
  if schurNull then (true, none)
  else if r ≠ c then (true, none)
  else if unitaryNull then (true, some data)
  else (false, some data)

/-! ### Helper lemmas -/

lemma isum_eq_zero {k : ℕ} {f : ℤ → ℚ} (h : ∀ l : ℕ, l < k → f l = 0) :
    isum k f = 0 := by
  induction k with
  | zero => rfl
  | succ k ih =>
    rw [isum, ih (fun l hl => h l (Nat.lt_succ_of_lt hl)),
      h k (Nat.lt_succ_self k), add_zero]

lemma isum_delta_left {k : ℕ} {m : ℤ} (g : ℤ → ℚ) (h0 : 0 ≤ m) (hk : m < (k : ℤ)) :
    isum k (fun l => (if m = l then (1 : ℚ) else 0) * g l) = g m := by
  induction k with
  | zero => omega
  | succ k ih =>
    rw [isum]
    by_cases hm : m = (k : ℤ)
    · have hz : isum k (fun l => (if m = l then (1 : ℚ) else 0) * g l) = 0 := by
        apply isum_eq_zero
        intro l hl
        have : m ≠ (l : ℤ) := by omega
        simp [this]
      rw [hz, if_pos hm, hm, one_mul, zero_add]
    · have hk2 : m < (k : ℤ) := by omega
      rw [ih hk2, if_neg hm, zero_mul, add_zero]

lemma isum_delta_right {k : ℕ} {m : ℤ} (g : ℤ → ℚ) (h0 : 0 ≤ m) (hk : m < (k : ℤ)) :
    isum k (fun l => g l * (if (l : ℤ) = m then (1 : ℚ) else 0)) = g m := by
  induction k with
  | zero => omega
  | succ k ih =>
    rw [isum]
    by_cases hm : (k : ℤ) = m
    · have hz : isum k (fun l => g l * (if (l : ℤ) = m then (1 : ℚ) else 0)) = 0 := by
        apply isum_eq_zero
        intro l hl
        have : (l : ℤ) ≠ m := by omega
        simp [this]
      rw [hz, if_pos hm, mul_one, zero_add, hm]
    · have hk2 : m < (k : ℤ) := by omega
      rw [ih hk2, if_neg hm, mul_zero, add_zero]

/-- A reflector equal to the identity leaves the owner of a left-applied
block view unchanged. -/
lemma reflectLeftBlock_id (M : Mat) (r0 c0 : ℤ) (k : ℕ) (cols : ℤ) :
    reflectLeftBlock idMat M r0 c0 k cols = M := by
  funext i j
  unfold reflectLeftBlock
  split
  case isTrue h =>
    obtain ⟨h1, h2, h3, h4⟩ := h
    have h0 : 0 ≤ i - r0 := by omega
    have hk : i - r0 < (k : ℤ) := by omega
    have hd := isum_delta_left (fun l => M (r0 + l) j) h0 hk
    simp only [idMat]
    rw [hd]
    have hi : r0 + (i - r0) = i := by ring
    show M (r0 + (i - r0)) j = M i j
    rw [hi]
  case isFalse h => rfl

/-- A reflector equal to the identity leaves the owner of a
right-applied block view unchanged. -/
lemma reflectRightBlock_id (M : Mat) (r0 c0 : ℤ) (rows : ℤ) (k : ℕ) :
    reflectRightBlock idMat M r0 c0 rows k = M := by
  funext i j
  unfold reflectRightBlock
  split
  case isTrue h =>
    obtain ⟨h1, h2, h3, h4⟩ := h
    have h0 : 0 ≤ j - c0 := by omega
    have hk : j - c0 < (k : ℤ) := by omega
    have hd := isum_delta_right (fun l => M i (c0 + l)) h0 hk
    simp only [idMat]
    rw [hd]
    have hj : c0 + (j - c0) = j := by ring
    show M i (c0 + (j - c0)) = M i j
    rw [hj]
  case isFalse h => rfl

/-- Behavior of one completed run of the cascading deflation loop:
the active size never grows, it stays put only when the whole state is
untouched, and on exit neither deflation test fires. -/
lemma try_to_deflate_spec :
    ∀ (d : ℕ) (s s1 : QRState) (r : List (ℤ × ℤ)),
      RelQR.try_to_deflate d s = some (s1, r) →
      s1.cur ≤ s.cur ∧ (s1.cur = s.cur → s1 = s) ∧
      RelQR.zero_under_diagonal s1 s1.cur = false ∧
      RelQR.zero_under_diagonal s1 (s1.cur - 1) = false := by
  intro d
  induction d with
  | zero => intro s s1 r h; simp [RelQR.try_to_deflate] at h
  | succ d ih =>
    intro s s1 r h
    rw [RelQR.try_to_deflate] at h
    by_cases hb1 : RelQR.zero_under_diagonal s s.cur = true
    · rw [if_pos hb1] at h
      cases hrec : RelQR.try_to_deflate d (RelQR.decrement_cur_size s 1) with
      | none => rw [hrec] at h; cases h
      | some p =>
        rw [hrec] at h
        obtain ⟨s2, r2⟩ := p
        have hs : s2 = s1 := by
          have := congrArg (Option.map Prod.fst) h
          simpa using this
        subst hs
        obtain ⟨hle, heq, ht1, ht2⟩ := ih _ _ _ hrec
        have hcur : (RelQR.decrement_cur_size s 1).cur = s.cur - 1 := rfl
        rw [hcur] at hle
        refine ⟨by omega, fun hc => absurd hc (by omega), ht1, ht2⟩
    · rw [if_neg hb1] at h
      by_cases hb2 : RelQR.zero_under_diagonal s (s.cur - 1) = true
      · rw [if_pos hb2] at h
        cases hrec : RelQR.try_to_deflate d (RelQR.decrement_cur_size s 2) with
        | none => rw [hrec] at h; cases h
        | some p =>
          rw [hrec] at h
          obtain ⟨s2, r2⟩ := p
          have hs : s2 = s1 := by
            have := congrArg (Option.map Prod.fst) h
            simpa using this
          subst hs
          obtain ⟨hle, heq, ht1, ht2⟩ := ih _ _ _ hrec
          have hcur : (RelQR.decrement_cur_size s 2).cur = s.cur - 2 := rfl
          rw [hcur] at hle
          refine ⟨by omega, fun hc => absurd hc (by omega), ht1, ht2⟩
      · rw [if_neg hb2] at h
        have hs : s = s1 := by
          have := congrArg (Option.map Prod.fst) h
          simpa using this
        subst hs
        exact ⟨le_refl _, fun _ => rfl, by simpa using hb1, by simpa using hb2⟩

/-- The relative-threshold while loop returns immediately when the
active size is already below 2. -/
lemma QR_loop_small (house : HouseFn) (d f : ℕ) (s : QRState)
    (h : s.cur < 2) : RelQR.QR_loop house d f s = some s := by
  have h2 : ¬ (2 ≤ s.cur) := by omega
  cases f with
  | zero => simp [RelQR.QR_loop, h2]
  | succ f => simp [RelQR.QR_loop, h2]

/-- When the relative-threshold while loop returns, the active size has
dropped below 2. -/
lemma QR_loop_exit (house : HouseFn) (d : ℕ) :
    ∀ (f : ℕ) (s out : QRState),
      RelQR.QR_loop house d f s = some out → out.cur < 2 := by
  intro f
  induction f with
  | zero =>
    intro s out h
    rw [RelQR.QR_loop] at h
    split at h
    · cases h
    · cases h; omega
  | succ f ih =>
    intro s out h
    rw [RelQR.QR_loop] at h
    split at h
    · cases htd : RelQR.try_to_deflate d (RelQR.make_QR_iteration house s) with
      | none => rw [htd] at h; cases h
      | some p => rw [htd] at h; exact ih _ _ h
    · cases h; omega

/-- The absolute-threshold for loop returns immediately when the active
size is already below 2. -/
lemma QR_for_small (house : HouseFn) (f : ℕ) (s : QRState)
    (h : s.cur < 2) : AbsQR.QR_for house f s = some s := by
  have h2 : ¬ (2 ≤ s.cur) := by omega
  cases f with
  | zero => simp [AbsQR.QR_for, h2]
  | succ f => simp [AbsQR.QR_for, h2]

/-- When the absolute-threshold for loop returns, the active size has
dropped below 2. -/
lemma QR_for_exit (house : HouseFn) :
    ∀ (f : ℕ) (s out : QRState),
      AbsQR.QR_for house f s = some out → out.cur < 2 := by
  intro f
  induction f with
  | zero =>
    intro s out h
    rw [AbsQR.QR_for] at h
    split at h
    · cases h
    · cases h; omega
  | succ f ih =>
    intro s out h
    rw [AbsQR.QR_for] at h
    split at h
    · exact ih _ _ h
    · cases h; omega

/-- The bulge-chase loop of the relative driver never touches the active
size. -/
lemma chase_cur (house : HouseFn) :
    ∀ (k : ℕ) (step : ℤ) (s : QRState),
      (RelQR.chase house k step s).cur = s.cur := by
  intro k
  induction k with
  | zero => intro step s; rfl
  | succ k ih => intro step s; rw [RelQR.chase]; rw [ih]; rfl

/-- One sweep of the relative driver never touches the active size. -/
lemma make_QR_iteration_cur (house : HouseFn) (s : QRState) :
    (RelQR.make_QR_iteration house s).cur = s.cur := by
  unfold RelQR.make_QR_iteration RelQR.restore_hessenberg_form
    RelQR.set_matching_column RelQR.update_unitary RelQR.update_schur_form
  simp [chase_cur]

/-- The bulge-chase loop of the absolute driver never touches the active
size. -/
lemma process_cur (house : HouseFn) :
    ∀ (k : ℕ) (step : ℤ) (s : QRState),
      (AbsQR.process house k step s).cur = s.cur := by
  intro k
  induction k with
  | zero => intro step s; rfl
  | succ k ih => intro step s; rw [AbsQR.process]; rw [ih]; rfl

/-! ### Concrete fixtures -/

/-- The all-zero matrix. -/
def zeroMat : Mat := fun _ _ => 0

/-- A trivial reflector factory (always the identity), used to
instantiate the abstract factory in witnesses. -/
def idHouse : HouseFn := fun _ _ => idMat

/-- A 3-by-3 schur form whose trailing sub-diagonal entry 1/8 is below
the relative tolerance while |T(1,0)| = 5 is not; the value 7 sits at
the out-of-range address (0, -1). -/
def matC4 : Mat := fun i j =>
  if i = 2 ∧ j = 1 then 1/8
  else if i = 1 ∧ j = 0 then 5
  else if i = 0 ∧ j = -1 then 7
  else if i = j ∧ 0 ≤ i ∧ i ≤ 2 then 1 else 0

/-- Deflation state at the top of the QR loop for `matC4`. -/
def stateC4 : QRState :=
  { T := matC4, U := zeroMat, n := 3, cur := 2, prec := 1/2 }

/-- A 3-by-3 schur form with zero diagonal: the relative tolerance at
index 2 is zero while the trailing sub-diagonal entry is 1/4. -/
def matC1 : Mat := fun i j => if i = 2 ∧ j = 1 then 1/4 else 0

/-- Deflation state for `matC1` with precision 1/2. -/
def stateC1 : QRState :=
  { T := matC1, U := zeroMat, n := 3, cur := 2, prec := 1/2 }

/-- A 3-by-3 schur form (precision 1) whose trailing sub-diagonal entry
is zero: the pre-sweep cascade deflates once and stops (|T(1,0)| = 5 and
the junk value 9 at (0,-1) are both above their relative tolerances). -/
def matC1W : Mat := fun i j =>
  if i = 1 ∧ j = 0 then 5
  else if i = 0 ∧ j = -1 then 9
  else if i = j ∧ 0 ≤ i ∧ i ≤ 2 then 1 else 0

/-- Input state for the pre-sweep deflation scenario. -/
def stateC1W : QRState :=
  { T := matC1W, U := zeroMat, n := 3, cur := 0, prec := 1 }

/-- The state the pre-sweep cascade leaves behind: one deflation,
cur_size = 1. -/
def stateC1Wafter : QRState :=
  { T := updEntry matC1W 2 1 0, U := zeroMat, n := 3, cur := 1, prec := 1 }

/-! ### Claims -/

/-- Claim C4: the cascading deflation loop of the relative-threshold
implementation has no lower guard on cur_size: from the reachable state
cur_size = 2 (a 3-by-3 input) with |T(2,1)| below tolerance and |T(1,0)|
not, it decrements cur_size to 1 and then evaluates
zero_under_diagonal(0), which reads the schur form at row 0, column -1 —
an out-of-bounds access. -/
theorem claim_C4 :
    RelQR.zero_under_diagonal stateC4 stateC4.cur = true ∧
    (RelQR.try_to_deflate 2 stateC4).map (fun p => p.1.cur) = some 1 ∧
    (0, -1) ∈ (RelQR.try_to_deflate 2 stateC4).elim [] Prod.snd ∧
    ¬ validIndex stateC4.n 0 (-1) := by
  have h : RelQR.try_to_deflate 2 stateC4 =
      some (RelQR.decrement_cur_size stateC4 1,
        RelQR.zudReads 2 ++ (RelQR.zudReads 1 ++ RelQR.zudReads 0)) := by
    rw [RelQR.try_to_deflate]
    rw [if_pos (by norm_num [RelQR.zero_under_diagonal, stateC4, matC4, abs_of_nonneg])]
    rw [RelQR.try_to_deflate]
    rw [if_neg (by norm_num [RelQR.zero_under_diagonal, RelQR.decrement_cur_size,
          updEntry, stateC4, matC4, abs_of_nonneg]),
      if_neg (by norm_num [RelQR.zero_under_diagonal, RelQR.decrement_cur_size,
          updEntry, stateC4, matC4, abs_of_nonneg])]
    norm_num [stateC4, RelQR.decrement_cur_size]
  refine ⟨by norm_num [RelQR.zero_under_diagonal, stateC4, matC4, abs_of_nonneg],
    ?_, ?_, by decide⟩
  · rw [h]; norm_num [RelQR.decrement_cur_size, stateC4]
  · rw [h]; norm_num [RelQR.zudReads]

/-- Claim C1, counterexample: not every deflation test uses the relative
tolerance.  In the absolute-threshold implementation the test
near_zero compares |T(cur_size, cur_size-1)| against the fixed precision:
at the concrete state stateC1 it fires (1/4 < 1/2) and try_deflate
decrements cur_size, although the relative tolerance
precision * (|T(2,2)| + |T(1,1)|) is 0 and the relative test does not
fire. -/
theorem claim_C1_counterexample :
    AbsQR.near_zero stateC1.prec (stateC1.T stateC1.cur (stateC1.cur - 1)) = true ∧
    RelQR.zero_under_diagonal stateC1 stateC1.cur = false ∧
    AbsQR.try_deflate stateC1 = AbsQR.deflate_once stateC1 ∧
    (AbsQR.try_deflate stateC1).cur = stateC1.cur - 1 := by
  have h1 : AbsQR.near_zero stateC1.prec (stateC1.T stateC1.cur (stateC1.cur - 1)) = true := by
    norm_num [AbsQR.near_zero, stateC1, matC1, abs_of_nonneg]
  have h3 : AbsQR.try_deflate stateC1 = AbsQR.deflate_once stateC1 := by
    rw [AbsQR.try_deflate, if_pos h1]
  refine ⟨h1, ?_, h3, ?_⟩
  · norm_num [RelQR.zero_under_diagonal, stateC1, matC1, zeroMat, abs_of_nonneg]
  · rw [h3]; rfl

/-- Claim C1 (amended): in the relative-threshold implementation, every
deflation test uses the relative tolerance
tol = precision * (|T(i,i)| + |T(i-1,i-1)|) on the subdiagonal entry
T(i, i-1); the test is run before the first QR iteration and after every
sweep, and cascades after each decrement of cur_size until neither test
fires.  (The absolute-threshold implementation instead compares
|T(cur_size, cur_size-1)| against the fixed precision, see the
counterexample.) -/
theorem claim_C1_amended :
    (∀ (s : QRState) (i : ℤ),
      RelQR.zero_under_diagonal s i = true ↔
        |s.T i (i - 1)| < s.prec * (|s.T i i| + |s.T (i - 1) (i - 1)|)) ∧
    (∀ (d : ℕ) (s s1 : QRState) (r : List (ℤ × ℤ)),
      RelQR.try_to_deflate d s = some (s1, r) →
        RelQR.zero_under_diagonal s1 s1.cur = false ∧
        RelQR.zero_under_diagonal s1 (s1.cur - 1) = false) ∧
    (∀ (house : HouseFn) (f d : ℕ) (s s1 : QRState) (r : List (ℤ × ℤ)),
      2 ≤ s.n - 1 →
      RelQR.try_to_deflate d { s with cur := s.n - 1 } = some (s1, r) →
      s1.cur < 2 →
      RelQR.run_QR_algorithm house f d s = some s1) ∧
    (∀ (house : HouseFn) (d f : ℕ) (s : QRState), 2 ≤ s.cur →
      RelQR.QR_loop house d (f + 1) s =
        (RelQR.try_to_deflate d (RelQR.make_QR_iteration house s)).bind
          (fun p => RelQR.QR_loop house d f p.1)) := by
  refine ⟨?_, ?_, ?_, ?_⟩
  · intro s i
    simp [RelQR.zero_under_diagonal]
  · intro d s s1 r h
    obtain ⟨-, -, h1, h2⟩ := try_to_deflate_spec d s s1 r h
    exact ⟨h1, h2⟩
  · intro house f d s s1 r hn htd hlt
    have hc : (2:ℤ) ≤ ({ s with cur := s.n - 1 } : QRState).cur := hn
    simp only [RelQR.run_QR_algorithm, if_pos hc, htd, Option.bind_some]
    exact QR_loop_small house d f s1 hlt
  · intro house d f s h2
    rw [RelQR.QR_loop, if_pos h2]

/-- Witness for claim C1 (amended): a concrete deflation cascade that
fires before the first sweep and leaves the loop with cur_size below 2,
so run_QR_algorithm returns the deflated state untouched by any sweep. -/
theorem claim_C1_amended_witness :
    2 ≤ stateC1W.n - 1 ∧
    RelQR.try_to_deflate 2 { stateC1W with cur := stateC1W.n - 1 } =
      some (stateC1Wafter, RelQR.zudReads 2 ++ (RelQR.zudReads 1 ++ RelQR.zudReads 0)) ∧
    stateC1Wafter.cur < 2 ∧
    RelQR.run_QR_algorithm idHouse 1 2 stateC1W = some stateC1Wafter := by
  have h2 : (2:ℤ) ≤ stateC1W.n - 1 := by norm_num [stateC1W]
  have htd : RelQR.try_to_deflate 2 { stateC1W with cur := stateC1W.n - 1 } =
      some (stateC1Wafter, RelQR.zudReads 2 ++ (RelQR.zudReads 1 ++ RelQR.zudReads 0)) := by
    rw [RelQR.try_to_deflate]
    rw [if_pos (by norm_num [RelQR.zero_under_diagonal, stateC1W, matC1W, abs_of_nonneg])]
    rw [RelQR.try_to_deflate]
    rw [if_neg (by norm_num [RelQR.zero_under_diagonal, RelQR.decrement_cur_size,
          updEntry, stateC1W, matC1W, abs_of_nonneg]),
      if_neg (by norm_num [RelQR.zero_under_diagonal, RelQR.decrement_cur_size,
          updEntry, stateC1W, matC1W, abs_of_nonneg])]
    norm_num [stateC1W, stateC1Wafter, RelQR.decrement_cur_size]
  have hlt : stateC1Wafter.cur < 2 := by norm_num [stateC1Wafter]
  exact ⟨h2, htd, hlt, claim_C1_amended.2.2.1 idHouse 1 2 stateC1W stateC1Wafter _ h2 htd hlt⟩

/-- Claim C2: in every deflation step (both drivers), the entry
T(cur_size, cur_size-1) is tested first and, when below tolerance,
zeroed with cur_size decremented by 1; only otherwise is
T(cur_size-1, cur_size-2) tested and, when below tolerance, zeroed with
cur_size decremented by 2 in a single indivisible step that leaves the
interior entry T(cur_size, cur_size-1) untouched — a converged trailing
2-by-2 block is never split into two 1-by-1 deflations. -/
theorem claim_C2 (s : QRState) (d : ℕ) :
    (AbsQR.near_zero s.prec (s.T s.cur (s.cur - 1)) = true →
      AbsQR.try_deflate s = AbsQR.deflate_once s ∧
      (AbsQR.deflate_once s).cur = s.cur - 1 ∧
      (AbsQR.deflate_once s).T = updEntry s.T s.cur (s.cur - 1) 0) ∧
    (AbsQR.near_zero s.prec (s.T s.cur (s.cur - 1)) = false →
      AbsQR.near_zero s.prec (s.T (s.cur - 1) (s.cur - 2)) = true →
      AbsQR.try_deflate s = AbsQR.deflate_twice s ∧
      (AbsQR.deflate_twice s).cur = s.cur - 2 ∧
      (AbsQR.deflate_twice s).T s.cur (s.cur - 1) = s.T s.cur (s.cur - 1) ∧
      (AbsQR.deflate_twice s).T (s.cur - 1) (s.cur - 2) = 0) ∧
    (RelQR.zero_under_diagonal s s.cur = true →
      RelQR.try_to_deflate (d + 1) s =
        (match RelQR.try_to_deflate d (RelQR.decrement_cur_size s 1) with
         | none => none
         | some (s1, r) => some (s1, RelQR.zudReads s.cur ++ r)) ∧
      (RelQR.decrement_cur_size s 1).cur = s.cur - 1 ∧
      (RelQR.decrement_cur_size s 1).T = updEntry s.T s.cur (s.cur - 1) 0) ∧
    (RelQR.zero_under_diagonal s s.cur = false →
      RelQR.zero_under_diagonal s (s.cur - 1) = true →
      RelQR.try_to_deflate (d + 1) s =
        (match RelQR.try_to_deflate d (RelQR.decrement_cur_size s 2) with
         | none => none
         | some (s1, r) =>
            some (s1, RelQR.zudReads s.cur ++ RelQR.zudReads (s.cur - 1) ++ r)) ∧
      (RelQR.decrement_cur_size s 2).cur = s.cur - 2 ∧
      (RelQR.decrement_cur_size s 2).T s.cur (s.cur - 1) = s.T s.cur (s.cur - 1) ∧
      (RelQR.decrement_cur_size s 2).T (s.cur - 1) (s.cur - 2) = 0) := by
  refine ⟨?_, ?_, ?_, ?_⟩
  · intro h1
    refine ⟨?_, rfl, rfl⟩
    rw [AbsQR.try_deflate, if_pos h1]
  · intro h1 h2
    refine ⟨?_, rfl, ?_, ?_⟩
    · rw [AbsQR.try_deflate, if_neg (by simp [h1]), if_pos h2]
    · show updEntry s.T (s.cur - 1) (s.cur - 2) 0 s.cur (s.cur - 1) = s.T s.cur (s.cur - 1)
      rw [updEntry, if_neg (by omega)]
    · show updEntry s.T (s.cur - 1) (s.cur - 2) 0 (s.cur - 1) (s.cur - 2) = 0
      rw [updEntry, if_pos (by omega)]
  · intro h1
    refine ⟨?_, rfl, ?_⟩
    · rw [RelQR.try_to_deflate, if_pos h1]
    · show updEntry s.T (s.cur + 1 - 1) (s.cur - 1) 0 = updEntry s.T s.cur (s.cur - 1) 0
      rw [show s.cur + 1 - 1 = s.cur from by ring]
  · intro h1 h2
    refine ⟨?_, rfl, ?_, ?_⟩
    · rw [RelQR.try_to_deflate, if_neg (by simp [h1]), if_pos h2]
    · show updEntry s.T (s.cur + 1 - 2) (s.cur - 2) 0 s.cur (s.cur - 1) = s.T s.cur (s.cur - 1)
      rw [updEntry, if_neg (by omega)]
    · show updEntry s.T (s.cur + 1 - 2) (s.cur - 2) 0 (s.cur - 1) (s.cur - 2) = 0
      rw [updEntry, if_pos (by omega)]

/-- A 3-by-3 state whose trailing sub-diagonal entry T(2,1) = 1 is above
its relative tolerance while T(1,0) = 0 is below its own: the 2-by-2
branch of the deflation step fires. -/
def matC2W : Mat := fun i j =>
  if i = 2 ∧ j = 1 then 1
  else if i = 0 ∧ j = 0 then 1 else 0

/-- Deflation state for `matC2W`. -/
def stateC2W : QRState :=
  { T := matC2W, U := zeroMat, n := 3, cur := 2, prec := 1/2 }

/-- Witness for claim C2: at `stateC1` the first test fires and
try_deflate is exactly deflate_once; at `stateC2W` the first test fails,
the second fires, and the cascade proceeds through a single decrement
by 2. -/
theorem claim_C2_witness :
    (AbsQR.near_zero stateC1.prec (stateC1.T stateC1.cur (stateC1.cur - 1)) = true ∧
      AbsQR.try_deflate stateC1 = AbsQR.deflate_once stateC1) ∧
    (RelQR.zero_under_diagonal stateC2W stateC2W.cur = false ∧
      RelQR.zero_under_diagonal stateC2W (stateC2W.cur - 1) = true ∧
      RelQR.try_to_deflate 2 stateC2W =
        (match RelQR.try_to_deflate 1 (RelQR.decrement_cur_size stateC2W 2) with
         | none => none
         | some (s1, r) =>
            some (s1, RelQR.zudReads stateC2W.cur ++
              RelQR.zudReads (stateC2W.cur - 1) ++ r)) ∧
      (RelQR.decrement_cur_size stateC2W 2).cur = stateC2W.cur - 2) := by
  have h1 : AbsQR.near_zero stateC1.prec (stateC1.T stateC1.cur (stateC1.cur - 1)) = true := by
    norm_num [AbsQR.near_zero, stateC1, matC1, abs_of_nonneg]
  have hb1 : RelQR.zero_under_diagonal stateC2W stateC2W.cur = false := by
    norm_num [RelQR.zero_under_diagonal, stateC2W, matC2W, abs_of_nonneg]
  have hb2 : RelQR.zero_under_diagonal stateC2W (stateC2W.cur - 1) = true := by
    norm_num [RelQR.zero_under_diagonal, stateC2W, matC2W, abs_of_nonneg]
  refine ⟨⟨h1, ((claim_C2 stateC1 0).1 h1).1⟩,
    hb1, hb2, ((claim_C2 stateC2W 1).2.2.2 hb1 hb2).1,
    ((claim_C2 stateC2W 1).2.2.2 hb1 hb2).2.1⟩

/-- A concrete upper-Hessenberg 3-by-3 matrix. -/
def matC3W : Mat := fun i j => if j + 1 < i then 0 else (i : ℚ) + 2 * (j : ℚ) + 1

/-- Starter-column state for `matC3W` with the trailing block at
rows/cols [1, 2]. -/
def stateC3W : QRState :=
  { T := matC3W, U := zeroMat, n := 3, cur := 2, prec := 1/100 }

/-- Claim C3: with trace and det taken from the trailing active 2-by-2
block, the starter 3-vector equals the first column of
M*M - trace*M + det*I for the leading 3-by-3 block M; the explicit
three-entry formula of the relative-threshold implementation agrees with
this reference whenever the schur form is upper Hessenberg, and the
matrix-expression computation of the absolute-threshold implementation
agrees with it unconditionally. -/
theorem claim_C3 (s : QRState)
    (hH : ∀ i j : ℤ, j + 1 < i → s.T i j = 0) :
    RelQR.find_matching_column s 0 = starter_column_ref s 0 ∧
    RelQR.find_matching_column s 1 = starter_column_ref s 1 ∧
    RelQR.find_matching_column s 2 = starter_column_ref s 2 ∧
    ∀ l : ℤ, AbsQR.find_starter_column s l = starter_column_ref s l := by
  have h20 : s.T 2 0 = 0 := hH 2 0 (by norm_num)
  refine ⟨?_, ?_, ?_, fun l => rfl⟩
  · show s.T 0 0 * s.T 0 0 + s.T 0 1 * s.T 1 0 - find_bottom_corner_trace s * s.T 0 0 +
        find_bottom_corner_det s = starter_column_ref s 0
    norm_num [starter_column_ref, find_bottom_corner_trace, find_bottom_corner_det,
      idMat, isum, h20]
    try ring
  · show s.T 1 0 * (s.T 0 0 + s.T 1 1 - find_bottom_corner_trace s) = starter_column_ref s 1
    norm_num [starter_column_ref, find_bottom_corner_trace, find_bottom_corner_det,
      idMat, isum, h20]
    try ring
  · show s.T 1 0 * s.T 2 1 = starter_column_ref s 2
    norm_num [starter_column_ref, find_bottom_corner_trace, find_bottom_corner_det,
      idMat, isum, h20]
    try ring

/-- Witness for claim C3 at the concrete Hessenberg matrix `matC3W`. -/
theorem claim_C3_witness :
    (∀ i j : ℤ, j + 1 < i → stateC3W.T i j = 0) ∧
    RelQR.find_matching_column stateC3W 0 = starter_column_ref stateC3W 0 ∧
    RelQR.find_matching_column stateC3W 1 = starter_column_ref stateC3W 1 ∧
    RelQR.find_matching_column stateC3W 2 = starter_column_ref stateC3W 2 ∧
    AbsQR.find_starter_column stateC3W 2 = starter_column_ref stateC3W 2 := by
  have hH : ∀ i j : ℤ, j + 1 < i → stateC3W.T i j = 0 := by
    intro i j h
    show matC3W i j = 0
    rw [matC3W, if_pos h]
  obtain ⟨e0, e1, e2, eAbs⟩ := claim_C3 stateC3W hH
  exact ⟨hH, e0, e1, e2, eAbs 2⟩

/-- Claim C5: in both drivers, cur_size is monotonically non-increasing
across QR-loop iterations — the sweep phases never touch it and the
deflation step either leaves the whole state unchanged or decrements
cur_size (by 1 or 2 per firing test) — and the QR loop exits exactly
when cur_size drops below 2: it returns immediately once cur_size < 2
and whenever it returns, the final cur_size is below 2. -/
theorem claim_C5 :
    (∀ (house : HouseFn) (s : QRState),
      (RelQR.make_QR_iteration house s).cur = s.cur) ∧
    (∀ (house : HouseFn) (s : QRState) (k : ℕ) (step : ℤ),
      (AbsQR.start house s).cur = s.cur ∧
      (AbsQR.process house k step s).cur = s.cur ∧
      (AbsQR.finish house s).cur = s.cur) ∧
    (∀ (d : ℕ) (s : QRState) (p : QRState × List (ℤ × ℤ)),
      RelQR.try_to_deflate d s = some p →
        p.1.cur ≤ s.cur ∧ (p.1.cur = s.cur → p.1 = s)) ∧
    (∀ s : QRState, (AbsQR.try_deflate s).cur = s.cur ∨
      (AbsQR.try_deflate s).cur = s.cur - 1 ∨
      (AbsQR.try_deflate s).cur = s.cur - 2) ∧
    (∀ (house : HouseFn) (d f : ℕ) (s : QRState), s.cur < 2 →
      RelQR.QR_loop house d f s = some s) ∧
    (∀ (house : HouseFn) (f : ℕ) (s : QRState), s.cur < 2 →
      AbsQR.QR_for house f s = some s) ∧
    (∀ (house : HouseFn) (f d : ℕ) (s out : QRState),
      RelQR.run_QR_algorithm house f d s = some out → out.cur < 2) ∧
    (∀ (house : HouseFn) (f : ℕ) (s out : QRState),
      AbsQR.run_QR_algorithm house f s = some out → out.cur < 2) := by
  refine ⟨?_, ?_, ?_, ?_, ?_, ?_, ?_, ?_⟩
  · exact make_QR_iteration_cur
  · intro house s k step
    exact ⟨rfl, process_cur house k step s, rfl⟩
  · intro d s p h
    obtain ⟨s1, r⟩ := p
    obtain ⟨h1, h2, -, -⟩ := try_to_deflate_spec d s s1 r h
    exact ⟨h1, h2⟩
  · intro s
    rw [AbsQR.try_deflate]
    by_cases h1 : AbsQR.near_zero s.prec (s.T s.cur (s.cur - 1)) = true
    · rw [if_pos h1]; right; left; rfl
    · rw [if_neg h1]
      by_cases h2 : AbsQR.near_zero s.prec (s.T (s.cur - 1) (s.cur - 2)) = true
      · rw [if_pos h2]; right; right; rfl
      · rw [if_neg h2]; left; rfl
  · exact fun house d f s h => QR_loop_small house d f s h
  · exact fun house f s h => QR_for_small house f s h
  · intro house f d s out h
    simp only [RelQR.run_QR_algorithm] at h
    by_cases hc : (2:ℤ) ≤ ({ s with cur := s.n - 1 } : QRState).cur
    · rw [if_pos hc] at h
      cases htd : RelQR.try_to_deflate d { s with cur := s.n - 1 } with
      | none => rw [htd] at h; cases h
      | some p =>
        rw [htd, Option.some_bind] at h
        exact QR_loop_exit house d f p.1 out h
    · rw [if_neg hc] at h
      exact QR_loop_exit house d f _ out h
  · intro house f s out h
    exact QR_for_exit house f _ out h

/-- An empty 3-by-3 state with cur_size = 2 and precision 0: neither
deflation test can fire. -/
def sZ3 : QRState := { T := zeroMat, U := zeroMat, n := 3, cur := 2, prec := 0 }

/-- An empty 2-by-2 state (the QR loop is skipped entirely). -/
def sZ2 : QRState := { T := zeroMat, U := zeroMat, n := 2, cur := 0, prec := 0 }

/-- The state `run_QR_algorithm` returns for `sZ2`. -/
def sZ2out : QRState := { T := zeroMat, U := zeroMat, n := 2, cur := 1, prec := 0 }

/-- An empty state already below the loop bound. -/
def sZ1 : QRState := { T := zeroMat, U := zeroMat, n := 3, cur := 1, prec := 0 }

/-- Witness for claim C5 at concrete states: a completed deflation
cascade, immediate loop exits below 2, and full runs of both drivers
ending with cur_size = 1 < 2. -/
theorem claim_C5_witness :
    (RelQR.try_to_deflate 1 sZ3 =
        some (sZ3, RelQR.zudReads sZ3.cur ++ RelQR.zudReads (sZ3.cur - 1)) ∧
      sZ3.cur ≤ sZ3.cur) ∧
    (sZ1.cur < 2 ∧ RelQR.QR_loop idHouse 1 1 sZ1 = some sZ1) ∧
    (sZ1.cur < 2 ∧ AbsQR.QR_for idHouse 1 sZ1 = some sZ1) ∧
    (RelQR.run_QR_algorithm idHouse 1 1 sZ2 = some sZ2out ∧ sZ2out.cur < 2) ∧
    (AbsQR.run_QR_algorithm idHouse 1 sZ2 = some sZ2out ∧ sZ2out.cur < 2) := by
  have hz1 : RelQR.zero_under_diagonal sZ3 sZ3.cur = false := by
    norm_num [RelQR.zero_under_diagonal, sZ3, zeroMat]
  have hz2 : RelQR.zero_under_diagonal sZ3 (sZ3.cur - 1) = false := by
    norm_num [RelQR.zero_under_diagonal, sZ3, zeroMat]
  have htd : RelQR.try_to_deflate 1 sZ3 =
      some (sZ3, RelQR.zudReads sZ3.cur ++ RelQR.zudReads (sZ3.cur - 1)) := by
    rw [RelQR.try_to_deflate, if_neg (by simp [hz1]), if_neg (by simp [hz2])]
  have hlt : sZ1.cur < 2 := by norm_num [sZ1]
  have hrel : RelQR.run_QR_algorithm idHouse 1 1 sZ2 = some sZ2out := by
    have h := claim_C5.2.2.2.2.1 idHouse 1 1
      ({ sZ2 with cur := sZ2.n - 1 }) (by norm_num [sZ2])
    simp only [RelQR.run_QR_algorithm]
    rw [if_neg (by norm_num [sZ2]), h]
    norm_num [sZ2, sZ2out]
  have habs : AbsQR.run_QR_algorithm idHouse 1 sZ2 = some sZ2out := by
    have h := claim_C5.2.2.2.2.2.1 idHouse 1
      ({ sZ2 with cur := sZ2.n - 1 }) (by norm_num [sZ2])
    simp only [AbsQR.run_QR_algorithm]
    rw [h]
    norm_num [sZ2, sZ2out]
  refine ⟨⟨htd, (claim_C5.2.2.1 1 sZ3 _ htd).1⟩,
    ⟨hlt, claim_C5.2.2.2.2.1 idHouse 1 1 sZ1 hlt⟩,
    ⟨hlt, claim_C5.2.2.2.2.2.1 idHouse 1 sZ1 hlt⟩,
    ⟨hrel, claim_C5.2.2.2.2.2.2.1 idHouse 1 1 sZ2 sZ2out hrel⟩,
    ⟨habs, claim_C5.2.2.2.2.2.2.2 idHouse 1 sZ2 sZ2out habs⟩⟩

/-- Claim C6: in every bulge-chase step with index 0 .. cur_size - 3,
the right-application of the step reflector to the schur form rewrites
only rows 0 .. min(cur_size, step+4) of the three affected columns
step+1 .. step+3; every entry below that band or outside those columns
is exactly the value left by the left-application (in both drivers). -/
theorem claim_C6 (house : HouseFn) (s : QRState) (step i j : ℤ)
    (h0 : 0 ≤ step) (h3 : step ≤ s.cur - 3)
    (hout : min s.cur (step + 4) + 1 ≤ i ∨ j < step + 1 ∨ step + 3 < j) :
    (RelQR.update_schur_form (house 3 (RelQR.get_reflected_column s step 3))
        s step 3).T i j
      = reflectLeftBlock (house 3 (RelQR.get_reflected_column s step 3)) s.T
          (step + 1) (max step 0) 3 (s.n - max step 0) i j ∧
    (AbsQR.process_step house s step).T i j
      = reflectLeftBlock (house 3 (block_column s (step + 1) step 3)) s.T
          (step + 1) step 3 (s.n - step) i j := by
  constructor
  · show reflectRightBlock (house 3 (RelQR.get_reflected_column s step 3))
        (reflectLeftBlock (house 3 (RelQR.get_reflected_column s step 3)) s.T
          (step + 1) (max step 0) 3 (s.n - max step 0))
        0 (step + 1) (min s.cur (step + 4) + 1) 3 i j = _
    rw [reflectRightBlock]
    rw [if_neg (by push_cast; omega)]
  · show reflectRightBlock (house 3 (block_column s (step + 1) step 3))
        (reflectLeftBlock (house 3 (block_column s (step + 1) step 3)) s.T
          (step + 1) step 3 (s.n - step))
        0 (step + 1) (min s.cur (step + 4) + 1) 3 i j = _
    rw [reflectRightBlock]
    rw [if_neg (by push_cast; omega)]

/-- A 6-by-6 state mid-chase (cur_size = 3). -/
def stateC6 : QRState :=
  { T := fun i j => (i : ℚ) + (j : ℚ), U := zeroMat, n := 6, cur := 3, prec := 0 }

/-- Witness for claim C6 at step 0 of `stateC6`, entry (5, 1) below the
band. -/
theorem claim_C6_witness :
    (0:ℤ) ≤ 0 ∧ (0:ℤ) ≤ stateC6.cur - 3 ∧
    (min stateC6.cur (0 + 4) + 1 ≤ (5:ℤ) ∨ (1:ℤ) < 0 + 1 ∨ (0:ℤ) + 3 < 1) ∧
    (RelQR.update_schur_form (idHouse 3 (RelQR.get_reflected_column stateC6 0 3))
        stateC6 0 3).T 5 1
      = reflectLeftBlock (idHouse 3 (RelQR.get_reflected_column stateC6 0 3))
          stateC6.T (0 + 1) (max 0 0) 3 (stateC6.n - max 0 0) 5 1 ∧
    (AbsQR.process_step idHouse stateC6 0).T 5 1
      = reflectLeftBlock (idHouse 3 (block_column stateC6 (0 + 1) 0 3))
          stateC6.T (0 + 1) 0 3 (stateC6.n - 0) 5 1 := by
  have h0 : (0:ℤ) ≤ 0 := le_refl 0
  have h3 : (0:ℤ) ≤ stateC6.cur - 3 := by norm_num [stateC6]
  have hout : min stateC6.cur (0 + 4) + 1 ≤ (5:ℤ) ∨ (1:ℤ) < 0 + 1 ∨ (0:ℤ) + 3 < 1 := by
    left; norm_num [stateC6]
  obtain ⟨hrel, habs⟩ := claim_C6 idHouse stateC6 0 5 1 h0 h3 hout
  exact ⟨h0, h3, hout, hrel, habs⟩

/-- Claim C7: for every 2-by-2 input, both drivers skip the QR iteration
loop entirely (cur_size starts at 1 < 2): the result is exactly the
state produced by the Hessenberg-reduction phase, with no sweep or
deflation applied. -/
theorem claim_C7 (house : HouseFn) (hess : Mat → Mat → Mat × Mat)
    (f d : ℕ) (data U0 : Mat) (prec : ℚ) :
    RelQR.run house hess f d data U0 2 prec =
      some { T := (hess data U0).1, U := (hess data U0).2,
             n := 2, cur := 1, prec := prec } ∧
    AbsQR.run house hess f data U0 2 prec =
      some { T := (hess data U0).1, U := (hess data U0).2,
             n := 2, cur := 1, prec := prec } := by
  constructor
  · simp only [RelQR.run, RelQR.run_QR_algorithm]
    rw [if_neg (by norm_num)]
    rw [QR_loop_small house d f _ (by norm_num)]
    norm_num
  · simp only [AbsQR.run, AbsQR.run_QR_algorithm]
    rw [QR_for_small house f _ (by norm_num)]
    norm_num

/-- Claim C8 (amended): both run() entry points fail as an
invalid-argument assertion exactly when the input is non-square or one
of the output pointers is null; the absolute-threshold implementation
performs the copy into *schur_form only when all checks pass, while the
relative-threshold implementation has already copied data into
*schur_form when the null-unitary assertion fires; on success the copy
is the first effect. -/
theorem claim_C8_amended (r c : ℤ) (sn un : Bool) (data : Mat) :
    (set_internal_members r c sn un data).1 = (decide (r ≠ c) || sn || un) ∧
    ((set_internal_members r c sn un data).2 =
      if r ≠ c ∨ sn = true ∨ un = true then none else some data) ∧
    (set_internal_resources r c sn un data).1 = (sn || decide (r ≠ c) || un) ∧
    ((set_internal_resources r c sn un data).2 =
      if sn = true ∨ r ≠ c then none else some data) := by
  by_cases h1 : r = c <;> cases sn <;> cases un <;>
    simp [set_internal_members, set_internal_resources, h1]

/-- Claim C8, counterexample: with a square input, a valid schur-form
pointer and a null unitary pointer, set_internal_resources of the
relative-threshold implementation fails and nevertheless has written the
input into the schur-form output buffer. -/
theorem claim_C8_counterexample :
    (set_internal_resources 3 3 false true zeroMat).1 = true ∧
    (set_internal_resources 3 3 false true zeroMat).2 = some zeroMat := by
  constructor <;> simp [set_internal_resources]

/-- Claim C9: a HouseholderReflector built from the zero vector (or any
vector that is already a multiple of the first basis vector) is the
identity matrix, and applying it through reflect_left or reflect_right
leaves every block unchanged. -/
theorem claim_C9 (sqrtFn : ℚ → ℚ) (k : ℕ) (x : ℤ → ℚ) (M : Mat)
    (r0 c0 rows cols : ℤ)
    (hx : ∀ l : ℤ, 1 ≤ l → x l = 0) :
    householderMatrix sqrtFn k x = idMat ∧
    reflectLeftBlock (householderMatrix sqrtFn k x) M r0 c0 k cols = M ∧
    reflectRightBlock (householderMatrix sqrtFn k x) M r0 c0 rows k = M := by
  have ht : tailZero k x = true := by
    rw [tailZero, List.all_eq_true]
    intro l hl
    by_cases h : l = 0
    · simp [h]
    · have h1 : (1:ℤ) ≤ (l:ℤ) := by
        have := Nat.one_le_iff_ne_zero.mpr h
        exact_mod_cast this
      simp [hx _ h1]
  have hH : householderMatrix sqrtFn k x = idMat := by
    rw [householderMatrix, if_pos ht]
  refine ⟨hH, ?_, ?_⟩
  · rw [hH]; exact reflectLeftBlock_id M r0 c0 k cols
  · rw [hH]; exact reflectRightBlock_id M r0 c0 rows k

/-- A concrete block owner for the reflector witness. -/
def matC9W : Mat := fun i j => (i : ℚ) + 2 * (j : ℚ)

/-- Witness for claim C9: the reflector built from the zero 3-vector
leaves a concrete block unchanged under both applications. -/
theorem claim_C9_witness :
    (∀ l : ℤ, 1 ≤ l → (fun _ : ℤ => (0:ℚ)) l = 0) ∧
    reflectLeftBlock (householderMatrix id 3 (fun _ : ℤ => (0:ℚ))) matC9W 0 0 3 4 = matC9W ∧
    reflectRightBlock (householderMatrix id 3 (fun _ : ℤ => (0:ℚ))) matC9W 1 1 5 3 = matC9W := by
  have hx : ∀ l : ℤ, 1 ≤ l → (fun _ : ℤ => (0:ℚ)) l = 0 := fun _ _ => rfl
  exact ⟨hx, (claim_C9 id 3 (fun _ => 0) matC9W 0 0 5 4 hx).2.1,
    (claim_C9 id 3 (fun _ => 0) matC9W 1 1 5 3 hx).2.2⟩

/-- Claim C10: TridiagonalSymmetric constructed with size n >= 2 has a
major diagonal of length n, a side diagonal of length n - 1, get_size
returning n, and a size that no write through the exposed diagonal
references can change; construction with size below 2 fails the
size >= 2 assertion. -/
theorem claim_C10 (n : ℤ) :
    (n < 2 → TridiagonalSymmetric.make n = none) ∧
    (2 ≤ n → ∀ t : TridiagonalSymmetric, TridiagonalSymmetric.make n = some t →
      t.get_major_diagonal.length = n.toNat ∧
      t.get_side_diagonal.length = n.toNat - 1 ∧
      (t.get_size : ℤ) = n ∧
      (∀ v, (t.write_major_diagonal v).get_size = t.get_size) ∧
      (∀ v, (t.write_side_diagonal v).get_size = t.get_size)) := by
  constructor
  · intro h
    rw [TridiagonalSymmetric.make, if_pos h]
  · intro h t ht
    rw [TridiagonalSymmetric.make, if_neg (by omega)] at ht
    have ht2 := Option.some.inj ht
    subst ht2
    refine ⟨?_, ?_, ?_, fun v => rfl, fun v => rfl⟩
    · simp [TridiagonalSymmetric.get_major_diagonal]
    · simp [TridiagonalSymmetric.get_side_diagonal]
    · show ((n.toNat : ℕ) : ℤ) = n
      omega

/-- The TridiagonalSymmetric value constructed for size 3. -/
def tridW : TridiagonalSymmetric :=
  { major_diagonal := List.replicate 3 0
    side_diagonal := List.replicate 2 0
    size := 3 }

/-- Witness for claim C10 at sizes 3 (success) and 1 (assertion). -/
theorem claim_C10_witness :
    (2:ℤ) ≤ 3 ∧ TridiagonalSymmetric.make 3 = some tridW ∧
    tridW.get_major_diagonal.length = (3:ℤ).toNat ∧
    tridW.get_side_diagonal.length = (3:ℤ).toNat - 1 ∧
    (tridW.get_size : ℤ) = 3 ∧
    ((1:ℤ) < 2 ∧ TridiagonalSymmetric.make 1 = none) := by
  have hmk : TridiagonalSymmetric.make 3 = some tridW := rfl
  obtain ⟨hmaj, hside, hsz, -, -⟩ :=
    (claim_C10 3).2 (by norm_num) tridW hmk
  exact ⟨by norm_num, hmk, hmaj, hside, hsz,
    by norm_num, (claim_C10 1).1 (by norm_num)⟩

end SchurSpec
